import Mathlib

/-!
# Verification of the gpx-format file reader `wpReadGpxFile`

This development is a shallow embedding of the text-file parser
`wpReadGpxFile` of the gpx tutorial executable (Go).  The parser reads a
line-oriented "gpx format" file and populates four ordered sequences
(rows, columns, elements, objective coefficients) and a problem-name
slot, driven by a small keyword state machine
(`readState ∈ {-1, 0, 1, 2, 3, 4, 5}`).

Modelling decisions, each tied to the Go source:

* A file is modelled as a `List String` of the lines the Go code obtains
  from `bufio.Reader.ReadString('\n')`: each element is one
  newline-terminated line (so elements are nonempty).  The model covers
  files that end with a newline, for which end-of-file arrives as a
  separate empty read handled by the `[]` case of `runLines`, exactly as
  in the Go loop, and I/O succeeds on every read (the `os.Open` failure
  and non-EOF read-error paths carry no parsing logic).

* Go `float64` values are modelled as exact rationals (`ℚ`).  The parser
  performs no arithmetic on the parsed values — it only stores them — so
  this is faithful on every input whose decimal literals are exactly
  representable, which all concrete inputs used below are.

* `strconv.ParseInt(s, 10, 64)` and `strconv.ParseFloat(s, 64)` return a
  pair `(value, err)` and the parser discards `err`, so a failed
  conversion stores the zero value.  `parseIntRaw`/`parseFloatRaw`
  model the decimal syntax the two Go functions accept (optional sign,
  digits, fraction, exponent); `parseIntD`/`parseFloatD` model the
  discarded-error convention, including the `int64` range clamp of
  `ParseInt` on overflow.
-/

namespace Gpx

/-- Whitespace as used by Go `strings.Fields` (ASCII range). -/
def isWS (c : Char) : Bool :=
  c = ' ' || c = '\t' || c = '\n' || c = '\r' || c = '\x0b' || c = '\x0c'

/-- Splits characters into maximal nonempty runs of non-whitespace;
`w` is the current word accumulated in reverse. -/
def fieldsAux : List Char → List Char → List String
  | [], w => if w = [] then [] else [String.mk w.reverse]
  | c :: cs, w =>
      if isWS c then
        if w = [] then fieldsAux cs [] else String.mk w.reverse :: fieldsAux cs []
      else fieldsAux cs (c :: w)

/-- Go `strings.Fields`: the nonempty maximal runs of non-whitespace. -/
def fields (s : String) : List String := fieldsAux s.data []

/-- Go `strings.ToUpper` (ASCII range suffices for the keywords). -/
def upper (s : String) : String := String.mk (s.data.map Char.toUpper)

/-- Value of a digit string, `none` unless it is one or more digits.
Used for the integer part of Go's decimal `ParseInt` syntax. -/
def digitsVal (cs : List Char) : Option Nat :=
  if cs = [] then none
  else if cs.all (fun c => c.isDigit) then
    some (cs.foldl (fun a c => a * 10 + (c.toNat - 48)) 0)
  else none

/-- Value of a digit list read left to right (no syntax check). -/
def natOfDigits (cs : List Char) : Nat :=
  cs.foldl (fun a c => a * 10 + (c.toNat - 48)) 0

/-- Go `strconv.ParseInt(s, 10, 64)` syntax: optional sign then digits.
`none` models a returned syntax error. -/
def parseIntRaw (s : String) : Option Int :=
  match s.data with
  | [] => none
  | '+' :: cs => (digitsVal cs).map (fun n => (n : Int))
  | '-' :: cs => (digitsVal cs).map (fun n => -(n : Int))
  | cs => (digitsVal cs).map (fun n => (n : Int))

def int64Max : Int := 2 ^ 63 - 1

def int64Min : Int := -(2 ^ 63)

/-- `ParseInt(..., 64)` clamps an out-of-range value to the `int64`
bounds (returning it together with a range error the caller discards). -/
def clamp64 (v : Int) : Int :=
  if v > int64Max then int64Max else if v < int64Min then int64Min else v

/-- `bigInt, _ = strconv.ParseInt(token, 10, 64)`: the error is
discarded, so a syntax failure yields `0` and an overflow is clamped. -/
def parseIntD (s : String) : Int :=
  clamp64 ((parseIntRaw s).getD 0)

/-- Decimal mantissa of Go `ParseFloat` syntax: digits, optionally a
point and more digits, at least one digit in all.  Returns its exact
value as a numerator/denominator pair (the fraction digits scaled by a
power of ten) and the remaining characters. -/
def parseMantissa (cs : List Char) : Option (Nat × Nat × List Char) :=
  let p := cs.span (fun c => c.isDigit)
  match p.2 with
  | '.' :: rest2 =>
      let q := rest2.span (fun c => c.isDigit)
      if p.1 = [] ∧ q.1 = [] then none
      else some (natOfDigits (p.1 ++ q.1), 10 ^ q.1.length, q.2)
  | _ => if p.1 = [] then none else some (natOfDigits p.1, 1, p.2)

/-- Exponent part after `e`/`E`: optional sign then digits. -/
def parseExpPart (cs : List Char) : Option Int :=
  match cs with
  | '+' :: cs2 => (digitsVal cs2).map (fun n => (n : Int))
  | '-' :: cs2 => (digitsVal cs2).map (fun n => -(n : Int))
  | cs2 => (digitsVal cs2).map (fun n => (n : Int))

/-- Go `strconv.ParseFloat(s, 64)` on its decimal forms, as an exact
rational; `none` models a returned syntax error. -/
def parseFloatRaw (s : String) : Option Rat :=
  let p : Bool × List Char :=
    match s.data with
    | '+' :: r => (false, r)
    | '-' :: r => (true, r)
    | r => (false, r)
  match parseMantissa p.2 with
  | none => none
  | some m =>
    let v : Option (Nat × Nat) :=
      match m.2.2 with
      | [] => some (m.1, m.2.1)
      | 'e' :: rest2 =>
          (parseExpPart rest2).map (fun e =>
            if 0 ≤ e then (m.1 * 10 ^ e.toNat, m.2.1) else (m.1, m.2.1 * 10 ^ (-e).toNat))
      | 'E' :: rest2 =>
          (parseExpPart rest2).map (fun e =>
            if 0 ≤ e then (m.1 * 10 ^ e.toNat, m.2.1) else (m.1, m.2.1 * 10 ^ (-e).toNat))
      | _ => none
    v.map (fun x => mkRat (if p.1 then -(x.1 : Int) else (x.1 : Int)) x.2)

/-- `value, _ = strconv.ParseFloat(token, 64)`: the error is discarded,
so a syntax failure yields `0`. -/
def parseFloatD (s : String) : Rat :=
  (parseFloatRaw s).getD 0

/-- `gpx.InputRow`: one constraint of the problem. -/
structure InputRow where
  name   : String
  sense  : String
  rhs    : Rat
  rngVal : Rat
deriving DecidableEq, Repr

/-- `gpx.InputCol`: one variable of the problem. -/
structure InputCol where
  name  : String
  type  : String
  bndLo : Rat
  bndUp : Rat
deriving DecidableEq, Repr

/-- `gpx.InputElem`: one nonzero coefficient. -/
structure InputElem where
  rowIndex : Int
  colIndex : Int
  value    : Rat
deriving DecidableEq, Repr

/-- `gpx.InputObjCoef`: one objective-function coefficient. -/
structure InputObjCoef where
  colIndex : Int
  value    : Rat
deriving DecidableEq, Repr

/-- The five output slots of `wpReadGpxFile` (the Go function receives
them as pointers `rows, cols, elem, obj, probName`). -/
structure GpxData where
  rows     : List InputRow
  cols     : List InputCol
  elem     : List InputElem
  obj      : List InputObjCoef
  probName : String
deriving DecidableEq, Repr

/-- The error returns of the parsing loop, each carrying the 1-based
line number interpolated into the Go error message. -/
inductive ParseErr where
  | unexpectedFormat (lineNum : Nat)
  | invalidObjLine (lineNum : Nat)
  | invalidRowLine (lineNum : Nat)
  | invalidColLine (lineNum : Nat)
  | invalidElemLine (lineNum : Nat)
deriving DecidableEq, Repr

/-- Outcome of one iteration of the reading loop on one line:
`cont` reaches the following iteration with the new `readState` and
accumulator, `halt` is the `break` on `readState == 5`, `fail` is an
error `return`. -/
inductive StepRes where
  | cont (readState : Int) (acc : GpxData)
  | halt (acc : GpxData)
  | fail (e : ParseErr)
deriving DecidableEq, Repr

/-- Result of the whole parse: success carries the warning
(`some lineNum` when the end-of-data token was missing and the Go code
prints `WARNING: End of data token missing, lineNum lines read`),
failure the returned error. -/
inductive ParseOutcome where
  | ok (d : GpxData) (warnLines : Option Nat)
  | error (e : ParseErr)
deriving DecidableEq, Repr

/-- The `switch readState` over data lines (cases 1–4 of the Go code;
any other state falls through the switch and the loop continues). -/
def applyData (readState : Int) (lineNum : Nat) (acc : GpxData)
    (token : List String) : StepRes :=
  if readState = 1 then
    if token.length ≠ 2 then .fail (.invalidObjLine lineNum)
    else .cont readState { acc with
      obj := acc.obj ++ [⟨parseIntD (token.getD 0 ""), parseFloatD (token.getD 1 "")⟩] }
  else if readState = 2 then
    if token.length ≠ 4 then .fail (.invalidRowLine lineNum)
    else .cont readState { acc with
      rows := acc.rows ++ [⟨token.getD 0 "", token.getD 1 "",
        parseFloatD (token.getD 2 ""), parseFloatD (token.getD 3 "")⟩] }
  else if readState = 3 then
    if token.length ≠ 4 then .fail (.invalidColLine lineNum)
    else .cont readState { acc with
      cols := acc.cols ++ [⟨token.getD 0 "", token.getD 1 "",
        parseFloatD (token.getD 2 ""), parseFloatD (token.getD 3 "")⟩] }
  else if readState = 4 then
    if token.length ≠ 3 then .fail (.invalidElemLine lineNum)
    else .cont readState { acc with
      elem := acc.elem ++ [⟨parseIntD (token.getD 0 ""), parseIntD (token.getD 1 ""),
        parseFloatD (token.getD 2 "")⟩] }
  else .cont readState acc

/-- The `switch strings.ToUpper(token[0])` keyword dispatch, the
`readState == 5` break check, then the data switch — the loop body after
tokenisation for a line with at least one field. -/
def dispatch (readState : Int) (lineNum : Nat) (acc : GpxData)
    (token : List String) : StepRes :=
  let kw := upper (token.headD "")
  if kw = "PROBLEM_NAME:" then
    if token.length = 1 then .cont 0 { acc with probName := "NoName" }
    else .cont 0 { acc with probName := token.getD 1 "" }
  else if kw = "OBJECTIVE_START" then .cont 1 acc
  else if kw = "ROWS_START" then .cont 2 acc
  else if kw = "COLUMNS_START" then .cont 3 acc
  else if kw = "ELEMENTS_START" then .cont 4 acc
  else if kw = "END_DATA" then .halt acc
  else if readState < 0 then .fail (.unexpectedFormat lineNum)
  else if readState = 5 then .halt acc
  else applyData readState lineNum acc token

/-- One iteration of the reading loop on one successfully read line:
the comment check on the first byte (`curLine[0] == "#"`), tokenisation
by `strings.Fields`, the blank-line skip, and the dispatch. -/
def stepLine (readState : Int) (lineNum : Nat) (acc : GpxData)
    (curLine : String) : StepRes :=
  if curLine.data.head? = some '#' then .cont readState acc
  else
    let token := fields curLine
    if token.length = 0 then .cont readState acc
    else dispatch readState lineNum acc token

/-- The reading loop.  `lineNum` counts the lines already consumed; it
is incremented on entry to each iteration as in the Go code, so the
end-of-file read is iteration `lineNum + 1` and, `readState = 5` having
broken out of the loop earlier, triggers the missing-terminator warning
with that count before returning success. -/
def runLines : List String → Nat → Int → GpxData → ParseOutcome
  | [], lineNum, readState, acc =>
      if readState ≠ 5 then .ok acc (some (lineNum + 1)) else .ok acc none
  | curLine :: rest, lineNum, readState, acc =>
      match stepLine readState (lineNum + 1) acc curLine with
      | .cont s a => runLines rest (lineNum + 1) s a
      | .halt a => .ok a none
      | .fail e => .error e

set_option linter.unusedVariables false in
/-- `wpReadGpxFile`: the four sequence slots are set to `nil` on entry
(`*rows = nil; *cols = nil; *elem = nil; *obj = nil`), `readState` to
`-1`; the name slot is **not** reset and keeps the caller's value
`probName0` unless a `PROBLEM_NAME:` line assigns it. -/
def wpReadGpxFile (input : List String) (rows0 : List InputRow)
    (cols0 : List InputCol) (elem0 : List InputElem)
    (obj0 : List InputObjCoef) (probName0 : String) : ParseOutcome :=
  runLines input 0 (-1)
    { rows := [], cols := [], elem := [], obj := [], probName := probName0 }

/-- The six keyword first fields of the `switch` (after `ToUpper`). -/
def IsKeyword (t : String) : Prop :=
  upper t = "PROBLEM_NAME:" ∨ upper t = "OBJECTIVE_START" ∨
  upper t = "ROWS_START" ∨ upper t = "COLUMNS_START" ∨
  upper t = "ELEMENTS_START" ∨ upper t = "END_DATA"

instance (t : String) : Decidable (IsKeyword t) := by
  unfold IsKeyword; infer_instance

/-- First non-whitespace character of a line (the spec's notion of where
a comment marker would be looked for). -/
def firstNonWS (s : String) : Option Char :=
  s.data.find? (fun c => !(isWS c))

/-! ## Helper lemmas about one loop iteration -/

/-- A line whose first character is `#` is skipped: no state change, no
tokenisation, no accumulation. -/
theorem stepLine_comment (s : Int) (ln : Nat) (acc : GpxData) (line : String)
    (h : line.data.head? = some '#') : stepLine s ln acc line = .cont s acc := by
  simp [stepLine, h]

/-- A non-comment line with no fields is skipped. -/
theorem stepLine_blank (s : Int) (ln : Nat) (acc : GpxData) (line : String)
    (hc : line.data.head? ≠ some '#') (hf : fields line = []) :
    stepLine s ln acc line = .cont s acc := by
  simp [stepLine, hc, hf]

/-- A non-comment line with at least one field goes to the keyword
dispatch on its token list. -/
theorem stepLine_tokens (s : Int) (ln : Nat) (acc : GpxData) (line : String)
    (t : String) (ts : List String) (hc : line.data.head? ≠ some '#')
    (hf : fields line = t :: ts) :
    stepLine s ln acc line = dispatch s ln acc (t :: ts) := by
  simp [stepLine, hc, hf]

/-- When the first field is none of the six keywords, the dispatch is
the state check followed by the data switch. -/
theorem dispatch_not_keyword (s : Int) (ln : Nat) (acc : GpxData)
    (t : String) (ts : List String) (hk : ¬ IsKeyword t) :
    dispatch s ln acc (t :: ts) =
      if s < 0 then .fail (.unexpectedFormat ln)
      else if s = 5 then .halt acc
      else applyData s ln acc (t :: ts) := by
  simp only [IsKeyword, not_or] at hk
  obtain ⟨h1, h2, h3, h4, h5, h6⟩ := hk
  unfold dispatch
  simp only [List.headD_cons]
  rw [if_neg h1, if_neg h2, if_neg h3, if_neg h4, if_neg h5, if_neg h6]

/-- The data switch either fails with one of the four block errors at
the given line number or continues in the same state. -/
theorem applyData_cases (s : Int) (ln : Nat) (acc : GpxData) (token : List String) :
    applyData s ln acc token = .fail (.invalidObjLine ln) ∨
    applyData s ln acc token = .fail (.invalidRowLine ln) ∨
    applyData s ln acc token = .fail (.invalidColLine ln) ∨
    applyData s ln acc token = .fail (.invalidElemLine ln) ∨
    ∃ a, applyData s ln acc token = .cont s a := by
  unfold applyData
  split_ifs <;> simp

/-- A run over lines that are all comments or blank consumes them
without touching the state or the accumulator, then hits end-of-file. -/
theorem runLines_skip_all (input : List String)
    (h : ∀ l ∈ input, l.data.head? = some '#' ∨ fields l = []) :
    ∀ (n : Nat) (s : Int) (acc : GpxData), s ≠ 5 →
      runLines input n s acc = .ok acc (some (n + input.length + 1)) := by
  induction input with
  | nil => intro n s acc hs; simp [runLines, hs]
  | cons l rest ih =>
    intro n s acc hs
    have hstep : stepLine s (n + 1) acc l = .cont s acc := by
      rcases h l (List.mem_cons_self l rest) with hl | hl
      · exact stepLine_comment _ _ _ _ hl
      · by_cases hcm : l.data.head? = some '#'
        · exact stepLine_comment _ _ _ _ hcm
        · exact stepLine_blank _ _ _ _ hcm hl
    have ih2 := ih (fun x hx => h x (List.mem_cons_of_mem _ hx)) (n + 1) s acc hs
    simp only [runLines, hstep, ih2, List.length_cons]
    congr 2
    omega


theorem dispatch_name_two (s : Int) (ln : Nat) (acc : GpxData) (t nm : String)
    (ts2 : List String) (h : upper t = "PROBLEM_NAME:") :
    dispatch s ln acc (t :: nm :: ts2) = .cont 0 { acc with probName := nm } := by
  simp only [dispatch, List.headD_cons, h, if_true]
  rw [if_neg (by simp only [List.length_cons]; omega)]
  simp

theorem dispatch_name_one (s : Int) (ln : Nat) (acc : GpxData) (t : String)
    (h : upper t = "PROBLEM_NAME:") :
    dispatch s ln acc [t] = .cont 0 { acc with probName := "NoName" } := by
  simp only [dispatch, List.headD_cons, h, if_true]
  rw [if_pos (by rfl)]

theorem dispatch_kw_obj (s : Int) (ln : Nat) (acc : GpxData) (t : String)
    (ts : List String) (h : upper t = "OBJECTIVE_START") :
    dispatch s ln acc (t :: ts) = .cont 1 acc := by
  simp only [dispatch, List.headD_cons, h]
  simp

theorem dispatch_kw_rows (s : Int) (ln : Nat) (acc : GpxData) (t : String)
    (ts : List String) (h : upper t = "ROWS_START") :
    dispatch s ln acc (t :: ts) = .cont 2 acc := by
  simp only [dispatch, List.headD_cons, h]
  simp

theorem dispatch_kw_cols (s : Int) (ln : Nat) (acc : GpxData) (t : String)
    (ts : List String) (h : upper t = "COLUMNS_START") :
    dispatch s ln acc (t :: ts) = .cont 3 acc := by
  simp only [dispatch, List.headD_cons, h]
  simp

theorem dispatch_kw_elems (s : Int) (ln : Nat) (acc : GpxData) (t : String)
    (ts : List String) (h : upper t = "ELEMENTS_START") :
    dispatch s ln acc (t :: ts) = .cont 4 acc := by
  simp only [dispatch, List.headD_cons, h]
  simp

theorem dispatch_kw_end (s : Int) (ln : Nat) (acc : GpxData) (t : String)
    (ts : List String) (h : upper t = "END_DATA") :
    dispatch s ln acc (t :: ts) = .halt acc := by
  simp only [dispatch, List.headD_cons, h]
  simp

theorem applyData_res (s : Int) (ln : Nat) (acc : GpxData) (token : List String) :
    (∃ e, applyData s ln acc token = .fail e) ∨
    ∃ a, applyData s ln acc token = .cont s a ∧ a.probName = acc.probName := by
  unfold applyData
  split_ifs <;> first
    | exact Or.inl ⟨_, rfl⟩
    | exact Or.inr ⟨_, rfl, rfl⟩

theorem dispatch_outcomes (s : Int) (ln : Nat) (acc : GpxData) (t : String)
    (ts : List String) :
    (upper t = "PROBLEM_NAME:" ∧
      ∃ nm, dispatch s ln acc (t :: ts) = .cont 0 { acc with probName := nm }) ∨
    (∃ k, dispatch s ln acc (t :: ts) = .cont k acc) ∨
    dispatch s ln acc (t :: ts) = .halt acc ∨
    (∃ e, dispatch s ln acc (t :: ts) = .fail e) ∨
    (∃ a, dispatch s ln acc (t :: ts) = .cont s a ∧ a.probName = acc.probName) := by
  by_cases k1 : upper t = "PROBLEM_NAME:"
  · rcases ts with _ | ⟨nm, ts2⟩
    · exact Or.inl ⟨k1, "NoName", dispatch_name_one s ln acc t k1⟩
    · exact Or.inl ⟨k1, nm, dispatch_name_two s ln acc t nm ts2 k1⟩
  by_cases k2 : upper t = "OBJECTIVE_START"
  · exact Or.inr (Or.inl ⟨1, dispatch_kw_obj s ln acc t ts k2⟩)
  by_cases k3 : upper t = "ROWS_START"
  · exact Or.inr (Or.inl ⟨2, dispatch_kw_rows s ln acc t ts k3⟩)
  by_cases k4 : upper t = "COLUMNS_START"
  · exact Or.inr (Or.inl ⟨3, dispatch_kw_cols s ln acc t ts k4⟩)
  by_cases k5 : upper t = "ELEMENTS_START"
  · exact Or.inr (Or.inl ⟨4, dispatch_kw_elems s ln acc t ts k5⟩)
  by_cases k6 : upper t = "END_DATA"
  · exact Or.inr (Or.inr (Or.inl (dispatch_kw_end s ln acc t ts k6)))
  have hk : ¬ IsKeyword t := by
    simp only [IsKeyword, not_or]; exact ⟨k1, k2, k3, k4, k5, k6⟩
  rw [dispatch_not_keyword s ln acc t ts hk]
  by_cases hs : s < 0
  · rw [if_pos hs]; exact Or.inr (Or.inr (Or.inr (Or.inl ⟨_, rfl⟩)))
  rw [if_neg hs]
  by_cases h5 : s = 5
  · rw [if_pos h5]; exact Or.inr (Or.inr (Or.inl rfl))
  rw [if_neg h5]
  rcases applyData_res s ln acc (t :: ts) with ⟨e, he⟩ | ⟨a, ha, hp⟩
  · rw [he]; exact Or.inr (Or.inr (Or.inr (Or.inl ⟨_, rfl⟩)))
  · rw [ha]; exact Or.inr (Or.inr (Or.inr (Or.inr ⟨a, rfl, hp⟩)))

theorem stepLine_halt_eq (s : Int) (ln : Nat) (acc : GpxData) (line : String)
    (a : GpxData) (h : stepLine s ln acc line = .halt a) : a = acc := by
  rcases hf : fields line with _ | ⟨t, ts⟩
  · by_cases hc : line.data.head? = some '#'
    · rw [stepLine_comment _ _ _ _ hc] at h; exact StepRes.noConfusion h
    · rw [stepLine_blank _ _ _ _ hc hf] at h; exact StepRes.noConfusion h
  · by_cases hc : line.data.head? = some '#'
    · rw [stepLine_comment _ _ _ _ hc] at h; exact StepRes.noConfusion h
    · rw [stepLine_tokens _ _ _ _ _ _ hc hf] at h
      rcases dispatch_outcomes s ln acc t ts with
        ⟨_, nm, hd⟩ | ⟨k, hd⟩ | hd | ⟨e, hd⟩ | ⟨a2, hd, _⟩ <;> rw [hd] at h
      · exact StepRes.noConfusion h
      · exact StepRes.noConfusion h
      · injection h with h1; exact h1.symm
      · exact StepRes.noConfusion h
      · exact StepRes.noConfusion h

theorem stepLine_name_preserved (s : Int) (ln : Nat) (acc : GpxData) (line : String)
    (s' : Int) (acc' : GpxData)
    (hn : upper ((fields line).headD "") ≠ "PROBLEM_NAME:")
    (h : stepLine s ln acc line = .cont s' acc') :
    acc'.probName = acc.probName := by
  rcases hf : fields line with _ | ⟨t, ts⟩
  · by_cases hc : line.data.head? = some '#'
    · rw [stepLine_comment _ _ _ _ hc] at h; injection h with _ h2; rw [← h2]
    · rw [stepLine_blank _ _ _ _ hc hf] at h; injection h with _ h2; rw [← h2]
  · by_cases hc : line.data.head? = some '#'
    · rw [stepLine_comment _ _ _ _ hc] at h; injection h with _ h2; rw [← h2]
    · rw [stepLine_tokens _ _ _ _ _ _ hc hf] at h
      rcases dispatch_outcomes s ln acc t ts with
        ⟨hpn, nm, hd⟩ | ⟨k, hd⟩ | hd | ⟨e, hd⟩ | ⟨a2, hd, hp⟩ <;> rw [hd] at h
      · rw [hf] at hn
        exact absurd hpn (by simpa using hn)
      · injection h with _ h2; rw [← h2]
      · exact StepRes.noConfusion h
      · exact StepRes.noConfusion h
      · injection h with _ h2; rw [← h2]; exact hp

theorem runLines_name_preserved (input : List String)
    (hno : ∀ l ∈ input, upper ((fields l).headD "") ≠ "PROBLEM_NAME:") :
    ∀ (n : Nat) (s : Int) (acc d : GpxData) (w : Option Nat),
      runLines input n s acc = .ok d w → d.probName = acc.probName := by
  induction input with
  | nil =>
    intro n s acc d w h
    unfold runLines at h
    split_ifs at h <;> (injection h with h1 _; rw [← h1])
  | cons l rest ih =>
    intro n s acc d w h
    unfold runLines at h
    rcases hstep : stepLine s (n + 1) acc l with ⟨s', a'⟩ | ⟨a'⟩ | ⟨e⟩ <;>
      simp only [hstep] at h
    · have h1 := ih (fun x hx => hno x (List.mem_cons_of_mem _ hx)) (n + 1) s' a' d w h
      have h2 := stepLine_name_preserved s (n + 1) acc l s' a'
        (hno l (List.mem_cons_self _ _)) hstep
      rw [h1, h2]
    · have ha := stepLine_halt_eq s (n + 1) acc l a' hstep
      injection h with h1 _
      rw [← h1, ha]
    · exact ParseOutcome.noConfusion h


/-! ## The claims -/

/-- The end-to-end scenario input quoted in the spec, one element per
newline-terminated line. -/
def endToEndInput : List String :=
  ["PROBLEM_NAME: Test1\n", "OBJECTIVE_START\n", "0 1.0\n", "ROWS_START\n",
   "c1 L 10.0 0.0\n", "COLUMNS_START\n", "x1 C 0.0 100.0\n",
   "ELEMENTS_START\n", "0 0 1.0\n", "END_DATA\n"]

/-- C1: on the quoted well-formed input, `wpReadGpxFile` succeeds
(whatever the previous contents of the five output slots) and produces
exactly name `"Test1"`, objective `[{col 0, val 1}]`, rows
`[{c1, L, 10, 0}]`, columns `[{x1, C, 0, 100}]` and elements
`[{0, 0, 1}]`, with no missing-terminator warning. -/
theorem c1_end_to_end_scenario (rows0 : List InputRow) (cols0 : List InputCol)
    (elem0 : List InputElem) (obj0 : List InputObjCoef) (probName0 : String) :
    wpReadGpxFile endToEndInput rows0 cols0 elem0 obj0 probName0 =
      .ok { rows := [⟨"c1", "L", 10, 0⟩], cols := [⟨"x1", "C", 0, 100⟩],
            elem := [⟨0, 0, 1⟩], obj := [⟨0, 1⟩], probName := "Test1" } none := rfl

/-- C2 counterexample: the problem-name slot is not reset at the start
of `wpReadGpxFile`.  On the same name-less input, two invocations whose
name slot holds different values left by a previous parse return
different results, each leaking that previous name. -/
theorem c2_counterexample :
    wpReadGpxFile ["ROWS_START\n", "END_DATA\n"] [] [] [] [] "Old" =
        .ok ⟨[], [], [], [], "Old"⟩ none ∧
    wpReadGpxFile ["ROWS_START\n", "END_DATA\n"] [] [] [] [] "New" =
        .ok ⟨[], [], [], [], "New"⟩ none := ⟨rfl, rfl⟩

/-- C2 (amended): at the start of every invocation the four ordered
sequences are reset to empty — the result never depends on their
previous contents, so a second invocation fully replaces them — but the
name slot is not reset: a successful parse of an input none of whose
lines starts with the `PROBLEM_NAME:` field returns the slot's previous
value unchanged. -/
theorem c2_sequences_reset_name_kept :
    (∀ (input : List String) (rows0 rows1 : List InputRow)
        (cols0 cols1 : List InputCol) (elem0 elem1 : List InputElem)
        (obj0 obj1 : List InputObjCoef) (p : String),
        wpReadGpxFile input rows0 cols0 elem0 obj0 p =
          wpReadGpxFile input rows1 cols1 elem1 obj1 p)
  ∧ (∀ (input : List String) (rows0 : List InputRow) (cols0 : List InputCol)
        (elem0 : List InputElem) (obj0 : List InputObjCoef) (p : String)
        (d : GpxData) (w : Option Nat),
        (∀ l ∈ input, upper ((fields l).headD "") ≠ "PROBLEM_NAME:") →
        wpReadGpxFile input rows0 cols0 elem0 obj0 p = .ok d w →
        d.probName = p) := by
  refine ⟨fun _ _ _ _ _ _ _ _ _ _ => rfl, ?_⟩
  intro input r c e o p d w hno h
  exact runLines_name_preserved input hno 0 (-1) ⟨[], [], [], [], p⟩ d w h

/-- Witness for the amended C2 theorem at a concrete input with no
`PROBLEM_NAME:` line: the previous name `"Prev"` survives. -/
theorem c2_sequences_reset_name_kept_witness :
    (∀ l ∈ ["OBJECTIVE_START\n"], upper ((fields l).headD "") ≠ "PROBLEM_NAME:") ∧
    (GpxData.probName ⟨[], [], [], [], "Prev"⟩ = "Prev") :=
  ⟨by decide,
   c2_sequences_reset_name_kept.2 ["OBJECTIVE_START\n"] [] [] [] [] "Prev"
     ⟨[], [], [], [], "Prev"⟩ (some 2) (by decide) rfl⟩

/-- C3: inside an active block, a data line with the correct field
count never fails on numeric garbage: the unconverted fields are stored
through `parseIntD`/`parseFloatD`, which yield `0` whenever the
conversion fails, and the loop continues in the same state. -/
theorem c3_failed_conversion_stores_zero :
    (∀ s, parseIntRaw s = none → parseIntD s = 0)
  ∧ (∀ s, parseFloatRaw s = none → parseFloatD s = 0)
  ∧ (∀ (ln : Nat) (acc : GpxData) (line a b : String),
        line.data.head? ≠ some '#' → fields line = [a, b] → ¬ IsKeyword a →
        stepLine 1 ln acc line =
          .cont 1 { acc with obj := acc.obj ++ [⟨parseIntD a, parseFloatD b⟩] })
  ∧ (∀ (ln : Nat) (acc : GpxData) (line a b c d : String),
        line.data.head? ≠ some '#' → fields line = [a, b, c, d] → ¬ IsKeyword a →
        stepLine 2 ln acc line =
          .cont 2 { acc with rows := acc.rows ++ [⟨a, b, parseFloatD c, parseFloatD d⟩] })
  ∧ (∀ (ln : Nat) (acc : GpxData) (line a b c d : String),
        line.data.head? ≠ some '#' → fields line = [a, b, c, d] → ¬ IsKeyword a →
        stepLine 3 ln acc line =
          .cont 3 { acc with cols := acc.cols ++ [⟨a, b, parseFloatD c, parseFloatD d⟩] })
  ∧ (∀ (ln : Nat) (acc : GpxData) (line a b c : String),
        line.data.head? ≠ some '#' → fields line = [a, b, c] → ¬ IsKeyword a →
        stepLine 4 ln acc line =
          .cont 4 { acc with elem := acc.elem ++ [⟨parseIntD a, parseIntD b, parseFloatD c⟩] }) := by
  refine ⟨?_, ?_, ?_, ?_, ?_, ?_⟩
  · intro s h
    simp [parseIntD, h, clamp64, int64Max, int64Min]
  · intro s h
    simp [parseFloatD, h]
  · intro ln acc line a b hc hf hk
    rw [stepLine_tokens _ _ _ _ _ _ hc hf, dispatch_not_keyword _ _ _ _ _ hk]
    norm_num [applyData]
  · intro ln acc line a b c d hc hf hk
    rw [stepLine_tokens _ _ _ _ _ _ hc hf, dispatch_not_keyword _ _ _ _ _ hk]
    norm_num [applyData]
  · intro ln acc line a b c d hc hf hk
    rw [stepLine_tokens _ _ _ _ _ _ hc hf, dispatch_not_keyword _ _ _ _ _ hk]
    norm_num [applyData]
  · intro ln acc line a b c hc hf hk
    rw [stepLine_tokens _ _ _ _ _ _ hc hf, dispatch_not_keyword _ _ _ _ _ hk]
    norm_num [applyData]

/-- Witness for C3 at concrete unparseable tokens in all four blocks. -/
theorem c3_failed_conversion_stores_zero_witness :
    parseIntD "zz" = 0 ∧ parseFloatD "yy" = 0 ∧
    stepLine 1 3 ⟨[], [], [], [], "P"⟩ "zz yy\n" =
      .cont 1 ⟨[], [], [], [⟨parseIntD "zz", parseFloatD "yy"⟩], "P"⟩ ∧
    stepLine 2 3 ⟨[], [], [], [], "P"⟩ "r1 L aa bb\n" =
      .cont 2 ⟨[⟨"r1", "L", parseFloatD "aa", parseFloatD "bb"⟩], [], [], [], "P"⟩ ∧
    stepLine 3 3 ⟨[], [], [], [], "P"⟩ "x1 C aa bb\n" =
      .cont 3 ⟨[], [⟨"x1", "C", parseFloatD "aa", parseFloatD "bb"⟩], [], [], "P"⟩ ∧
    stepLine 4 3 ⟨[], [], [], [], "P"⟩ "ii jj vv\n" =
      .cont 4 ⟨[], [], [⟨parseIntD "ii", parseIntD "jj", parseFloatD "vv"⟩], [], "P"⟩ :=
  ⟨c3_failed_conversion_stores_zero.1 "zz" (by decide),
   c3_failed_conversion_stores_zero.2.1 "yy" (by decide),
   c3_failed_conversion_stores_zero.2.2.1 3 ⟨[], [], [], [], "P"⟩ "zz yy\n" "zz" "yy"
     (by decide) (by decide) (by decide),
   c3_failed_conversion_stores_zero.2.2.2.1 3 ⟨[], [], [], [], "P"⟩ "r1 L aa bb\n"
     "r1" "L" "aa" "bb" (by decide) (by decide) (by decide),
   c3_failed_conversion_stores_zero.2.2.2.2.1 3 ⟨[], [], [], [], "P"⟩ "x1 C aa bb\n"
     "x1" "C" "aa" "bb" (by decide) (by decide) (by decide),
   c3_failed_conversion_stores_zero.2.2.2.2.2 3 ⟨[], [], [], [], "P"⟩ "ii jj vv\n"
     "ii" "jj" "vv" (by decide) (by decide) (by decide)⟩


/-- C4: reaching end of input in any state other than 5 returns success
carrying the missing-terminator warning with the number of lines read
(the failed read included, as in the Go counter); in particular a file
of only comment and blank lines parses successfully as empty, with the
warning and with the name slot untouched. -/
theorem c4_missing_end_data_warns_and_succeeds :
    (∀ (lineNum : Nat) (readState : Int) (acc : GpxData), readState ≠ 5 →
        runLines [] lineNum readState acc = .ok acc (some (lineNum + 1)))
  ∧ (∀ (input : List String) (rows0 : List InputRow) (cols0 : List InputCol)
        (elem0 : List InputElem) (obj0 : List InputObjCoef) (probName0 : String),
        (∀ l ∈ input, l.data.head? = some '#' ∨ fields l = []) →
        wpReadGpxFile input rows0 cols0 elem0 obj0 probName0 =
          .ok ⟨[], [], [], [], probName0⟩ (some (input.length + 1))) := by
  constructor
  · intro n s acc hs
    simp [runLines, hs]
  · intro input r c e o p h
    have := runLines_skip_all input h 0 (-1) ⟨[], [], [], [], p⟩ (by decide)
    simpa [wpReadGpxFile] using this

/-- Witness for C4: end of input in state 2, and a two-line file of one
comment and one blank line. -/
theorem c4_missing_end_data_warns_and_succeeds_witness :
    runLines [] 7 2 ⟨[], [], [], [], "q"⟩ = .ok ⟨[], [], [], [], "q"⟩ (some 8) ∧
    wpReadGpxFile ["# note\n", "\n"] [] [] [] [] "q" =
      .ok ⟨[], [], [], [], "q"⟩ (some 3) :=
  ⟨c4_missing_end_data_warns_and_succeeds.1 7 2 ⟨[], [], [], [], "q"⟩ (by decide),
   c4_missing_end_data_warns_and_succeeds.2 ["# note\n", "\n"] [] [] [] [] "q" (by decide)⟩

/-- C5: a line whose first field is `END_DATA` (case-insensitively)
stops the run at once with the data accumulated so far and no warning;
the remaining lines are never looked at, so nothing after `END_DATA` —
for example the row line of the concrete conjunct — reaches the result. -/
theorem c5_end_data_stops_immediately :
    (∀ (line : String) (rest : List String) (ln : Nat) (s : Int) (acc : GpxData)
        (t : String) (ts : List String),
        line.data.head? ≠ some '#' → fields line = t :: ts → upper t = "END_DATA" →
        runLines (line :: rest) ln s acc = .ok acc none)
  ∧ wpReadGpxFile ["ROWS_START\n", "END_DATA\n", "r2 L 1.0 0.0\n"] [] [] [] [] "" =
      .ok ⟨[], [], [], [], ""⟩ none := by
  constructor
  · intro line rest ln s acc t ts hc hf hk
    have hstep : stepLine s (ln + 1) acc line = .halt acc := by
      rw [stepLine_tokens _ _ _ _ _ _ hc hf]
      exact dispatch_kw_end _ _ _ _ _ hk
    simp [runLines, hstep]
  · rfl

/-- Witness for C5: `END_DATA` followed by an unread junk line. -/
theorem c5_end_data_stops_immediately_witness :
    runLines ["END_DATA\n", "junk junk\n"] 0 2 ⟨[], [], [], [], "w"⟩ =
      .ok ⟨[], [], [], [], "w"⟩ none :=
  c5_end_data_stops_immediately.1 "END_DATA\n" ["junk junk\n"] 0 2
    ⟨[], [], [], [], "w"⟩ "END_DATA" [] (by decide) (by decide) (by decide)

/-- C6: in the ROWS block (state 2), a non-keyword, non-comment,
non-blank line whose field count differs from 4 fails with the
row-block error carrying the 1-based number of that line (`ln` lines
were consumed before it); the closed conjunct shows the error citing
line 2 of a concrete file. -/
theorem c6_row_field_count_error :
    (∀ (line : String) (rest : List String) (ln : Nat) (acc : GpxData)
        (t : String) (ts : List String),
        line.data.head? ≠ some '#' → fields line = t :: ts → ¬ IsKeyword t →
        (t :: ts).length ≠ 4 →
        runLines (line :: rest) ln 2 acc = .error (.invalidRowLine (ln + 1)))
  ∧ wpReadGpxFile ["ROWS_START\n", "c1 L 10.0\n"] [] [] [] [] "" =
      .error (.invalidRowLine 2) := by
  constructor
  · intro line rest ln acc t ts hc hf hk hn
    have hstep : stepLine 2 (ln + 1) acc line = .fail (.invalidRowLine (ln + 1)) := by
      rw [stepLine_tokens _ _ _ _ _ _ hc hf, dispatch_not_keyword _ _ _ _ _ hk]
      norm_num [applyData, hn]
      exact fun h => absurd h (by simpa using hn)
    simp [runLines, hstep]
  · rfl

/-- Witness for C6: a three-field line in state 2 after 4 lines. -/
theorem c6_row_field_count_error_witness :
    runLines ["a b c\n"] 4 2 ⟨[], [], [], [], "w"⟩ = .error (.invalidRowLine 5) :=
  c6_row_field_count_error.1 "a b c\n" [] 4 ⟨[], [], [], [], "w"⟩ "a" ["b", "c"]
    (by decide) (by decide) (by decide) (by decide)

/-- C7 counterexample: in state 2 a non-keyword, non-comment, non-blank
line does not let parsing continue — the claim's "otherwise … parsing
continues" fails, because the line is processed as a ROWS data line and
aborts the parse with a field-count error. -/
theorem c7_counterexample :
    wpReadGpxFile ["ROWS_START\n", "p q r\n", "END_DATA\n"] [] [] [] [] "" =
      .error (.invalidRowLine 2) := rfl

/-- C7 (amended): a non-keyword, non-comment, non-blank line makes the
parser fail with the Unexpected-format error citing the line number if
and only if the state is still -1; otherwise no Unexpected-format error
is raised and the keyword dispatch leaves the state unchanged — the
line is handled as a data line of the active block, which may itself
fail with that block's field-count error. -/
theorem c7_unexpected_format_iff_initial (s : Int) (ln : Nat) (acc : GpxData)
    (line : String) (t : String) (ts : List String)
    (hc : line.data.head? ≠ some '#') (hf : fields line = t :: ts)
    (hk : ¬ IsKeyword t) :
    (s = -1 → stepLine s ln acc line = .fail (.unexpectedFormat ln))
  ∧ (0 ≤ s → stepLine s ln acc line ≠ .fail (.unexpectedFormat ln)
      ∧ ∀ s' acc', stepLine s ln acc line = .cont s' acc' → s' = s) := by
  have hd : stepLine s ln acc line =
      if s < 0 then .fail (.unexpectedFormat ln)
      else if s = 5 then .halt acc
      else applyData s ln acc (t :: ts) := by
    rw [stepLine_tokens _ _ _ _ _ _ hc hf, dispatch_not_keyword _ _ _ _ _ hk]
  constructor
  · intro hs
    rw [hd, if_pos (by omega)]
  · intro hs
    rw [hd, if_neg (by omega)]
    by_cases h5 : s = 5
    · rw [if_pos h5]
      exact ⟨by simp, by simp⟩
    · rw [if_neg h5]
      rcases applyData_cases s ln acc (t :: ts) with h2 | h2 | h2 | h2 | ⟨a, h2⟩ <;>
        rw [h2]
      · exact ⟨by simp, by simp⟩
      · exact ⟨by simp, by simp⟩
      · exact ⟨by simp, by simp⟩
      · exact ⟨by simp, by simp⟩
      · refine ⟨by simp, ?_⟩
        intro s' acc' hE
        injection hE with h1 _
        exact h1.symm

/-- Witness for C7: the same line in state -1 fails with the
Unexpected-format error at its line number; in state 2 that error never
arises and a continuation would keep the state. -/
theorem c7_unexpected_format_iff_initial_witness :
    stepLine (-1) 9 ⟨[], [], [], [], "w"⟩ "foo bar\n" = .fail (.unexpectedFormat 9) ∧
    (stepLine 2 9 ⟨[], [], [], [], "w"⟩ "foo bar\n" ≠ .fail (.unexpectedFormat 9) ∧
      ∀ s' acc', stepLine 2 9 ⟨[], [], [], [], "w"⟩ "foo bar\n" = .cont s' acc' → s' = 2) :=
  ⟨(c7_unexpected_format_iff_initial (-1) 9 ⟨[], [], [], [], "w"⟩ "foo bar\n"
      "foo" ["bar"] (by decide) (by decide) (by decide)).1 rfl,
   (c7_unexpected_format_iff_initial 2 9 ⟨[], [], [], [], "w"⟩ "foo bar\n"
      "foo" ["bar"] (by decide) (by decide) (by decide)).2 (by decide)⟩


/-- C8 counterexample: a line whose first non-whitespace character is
the comment marker but whose first character is a space is NOT skipped:
in the ROWS block it is tokenised (`#` becomes an ordinary field) and
aborts the parse with a field-count error instead of being ignored. -/
theorem c8_counterexample :
    firstNonWS " # x\n" = some '#' ∧
    wpReadGpxFile ["ROWS_START\n", " # x\n", "END_DATA\n"] [] [] [] [] "" =
      .error (.invalidRowLine 2) := ⟨by decide, rfl⟩

/-- C8 (amended): every line whose first character (not first
non-whitespace character) is the comment marker `#` is skipped
entirely — no state change, no accumulation, no field-count check, the
line being dropped before tokenisation — and the loop moves on to the
next line. -/
theorem c8_first_char_comment_skipped :
    (∀ (s : Int) (ln : Nat) (acc : GpxData) (line : String),
        line.data.head? = some '#' → stepLine s ln acc line = .cont s acc)
  ∧ (∀ (line : String) (rest : List String) (n : Nat) (s : Int) (acc : GpxData),
        line.data.head? = some '#' →
        runLines (line :: rest) n s acc = runLines rest (n + 1) s acc) := by
  refine ⟨stepLine_comment, ?_⟩
  intro line rest n s acc h
  simp [runLines, stepLine_comment s (n + 1) acc line h]

/-- Witness for C8: a comment line that spells a keyword and one that
would have a wrong field count are both skipped unchanged. -/
theorem c8_first_char_comment_skipped_witness :
    stepLine 2 5 ⟨[], [], [], [], "w"⟩ "#END_DATA\n" = .cont 2 ⟨[], [], [], [], "w"⟩ ∧
    runLines ["# a b\n"] 0 (-1) ⟨[], [], [], [], "w"⟩ =
      runLines [] 1 (-1) ⟨[], [], [], [], "w"⟩ :=
  ⟨c8_first_char_comment_skipped.1 2 5 ⟨[], [], [], [], "w"⟩ "#END_DATA\n" (by decide),
   c8_first_char_comment_skipped.2 "# a b\n" [] 0 (-1) ⟨[], [], [], [], "w"⟩ (by decide)⟩

/-- C9: a line whose first field upper-cases to `PROBLEM_NAME:` sets
the problem name to its second field, or to `"NoName"` when the line
has no second field; the concrete conjuncts run whole files, starting
from any previous name. -/
theorem c9_problem_name_line :
    (∀ (s : Int) (ln : Nat) (acc : GpxData) (line t nm : String) (ts2 : List String),
        line.data.head? ≠ some '#' → fields line = t :: nm :: ts2 →
        upper t = "PROBLEM_NAME:" →
        stepLine s ln acc line = .cont 0 { acc with probName := nm })
  ∧ (∀ (s : Int) (ln : Nat) (acc : GpxData) (line t : String),
        line.data.head? ≠ some '#' → fields line = [t] →
        upper t = "PROBLEM_NAME:" →
        stepLine s ln acc line = .cont 0 { acc with probName := "NoName" })
  ∧ (∀ (p : String),
        wpReadGpxFile ["PROBLEM_NAME: Foo\n", "END_DATA\n"] [] [] [] [] p =
          .ok ⟨[], [], [], [], "Foo"⟩ none)
  ∧ (∀ (p : String),
        wpReadGpxFile ["PROBLEM_NAME:\n", "END_DATA\n"] [] [] [] [] p =
          .ok ⟨[], [], [], [], "NoName"⟩ none) := by
  refine ⟨?_, ?_, fun p => rfl, fun p => rfl⟩
  · intro s ln acc line t nm ts2 hc hf hk
    rw [stepLine_tokens _ _ _ _ _ _ hc hf]
    exact dispatch_name_two _ _ _ _ _ _ hk
  · intro s ln acc line t hc hf hk
    rw [stepLine_tokens _ _ _ _ _ _ hc hf]
    exact dispatch_name_one _ _ _ _ hk

/-- Witness for C9: a named line (state -1) and a bare lower-case
`problem_name:` line (state 3). -/
theorem c9_problem_name_line_witness :
    stepLine (-1) 1 ⟨[], [], [], [], "w"⟩ "PROBLEM_NAME: Foo\n" =
      .cont 0 ⟨[], [], [], [], "Foo"⟩ ∧
    stepLine 3 8 ⟨[], [], [], [], "w"⟩ "problem_name:\n" =
      .cont 0 ⟨[], [], [], [], "NoName"⟩ :=
  ⟨c9_problem_name_line.1 (-1) 1 ⟨[], [], [], [], "w"⟩ "PROBLEM_NAME: Foo\n"
      "PROBLEM_NAME:" "Foo" [] (by decide) (by decide) (by decide),
   c9_problem_name_line.2.1 3 8 ⟨[], [], [], [], "w"⟩ "problem_name:\n"
      "problem_name:" (by decide) (by decide) (by decide)⟩

/-- C10: in state 0 (a `PROBLEM_NAME:` line seen, no block opened), a
non-keyword, non-comment, non-blank line is silently ignored: no error,
no state change, and no row, column, element or objective entry. -/
theorem c10_state_zero_ignores_data_lines (ln : Nat) (acc : GpxData)
    (line t : String) (ts : List String)
    (hc : line.data.head? ≠ some '#') (hf : fields line = t :: ts)
    (hk : ¬ IsKeyword t) :
    stepLine 0 ln acc line = .cont 0 acc := by
  rw [stepLine_tokens _ _ _ _ _ _ hc hf, dispatch_not_keyword _ _ _ _ _ hk]
  norm_num [applyData]

/-- Witness for C10 on a concrete stray line. -/
theorem c10_state_zero_ignores_data_lines_witness :
    stepLine 0 2 ⟨[], [], [], [], "w"⟩ "stray data line\n" =
      .cont 0 ⟨[], [], [], [], "w"⟩ :=
  c10_state_zero_ignores_data_lines 2 ⟨[], [], [], [], "w"⟩ "stray data line\n"
    "stray" ["data", "line"] (by decide) (by decide) (by decide)

end Gpx
